import Mathlib

/-!
# RAG-chatWithPDF — verification of the ingestion and query pipelines

Shallow embedding of the server-side core of the RAG-chatWithPDF repository:
the document ingestion pipeline (`documentController.uploadDocument`,
`documentService.processDocument`, `pineconeService.storeVectors`) and the
query pipeline (`queryController.handleQuery`, `queryService.transformQuery`,
`queryService.searchDocuments`, `queryService.generateAnswer`,
`queryService.processQuery`).

External effects (the Gemini LLM, the Gemini embedding endpoint, the Pinecone
index, wall-clock timestamps) are modelled as explicit oracle records passed
to the embedded functions; the functions additionally return a trace of
observable events so that properties such as "the generator is never invoked"
or "exactly one attempt is observed" can be stated.
-/

namespace RagChat

/-- JS `String.prototype.includes(sub)` restricted to the character lists of
the two strings: does `s` start with `sub`? -/
def startsWithList : List Char → List Char → Bool
  | _, [] => true
  | [], _ :: _ => false
  | a :: s, b :: t => a == b && startsWithList s t

/-- Does `sub` occur contiguously inside `s`? -/
def containsSub (sub : List Char) : List Char → Bool
  | [] => startsWithList [] sub
  | c :: t => startsWithList (c :: t) sub || containsSub sub t

/-- JS `s.includes(sub)`, as used in `processQuery`'s
`error.message.includes('search')` test. -/
def includesStr (s sub : String) : Bool :=
  containsSub sub.data s.data

/-- JS `s.trim()`: strip leading and trailing whitespace. -/
def jsTrim (s : String) : String :=
  String.mk (((s.data.dropWhile Char.isWhitespace).reverse.dropWhile Char.isWhitespace).reverse)

/-- JS `s.trim().length === 0`: every character of `s` is whitespace
(in particular `s = ""` qualifies). -/
def jsTrimEmpty (s : String) : Bool :=
  s.data.all (fun c => c.isWhitespace)

/-! ## Document lifecycle (documentController.js, `part_003`) -/

/-- The document lifecycle status strings written by `documentController.js`:
`'processing'` at upload, `'ready'` on pipeline success, `'failed'` on
pipeline failure. -/
inductive Status
  | processing
  | ready
  | failed
  deriving DecidableEq, Repr

/-- The in-memory metadata record stored in the `documents` map by
`uploadDocument` and updated by the background completion handlers. -/
structure DocRecord where
  documentId : String
  fileName : String
  status : Status
  pageCount : Option Nat
  chunkCount : Option Nat
  error : Option String
  deriving DecidableEq, Repr

/-- The value `processDocument` resolves with:
`{ success, pageCount, chunkCount, documentId }`. -/
structure IngestResult where
  pageCount : Nat
  chunkCount : Nat
  deriving DecidableEq, Repr

/-- `uploadDocument`: the initial record written into `documents` right after
the id is generated (`status: 'processing'`, no counts, no error). -/
def createDoc (documentId fileName : String) : DocRecord :=
  { documentId := documentId
    fileName := fileName
    status := .processing
    pageCount := none
    chunkCount := none
    error := none }

/-- The `.then` continuation of `uploadDocument`: on `processDocument`
success, spread the old record and set `status: 'ready'` plus the counts. -/
def onResolve (doc : DocRecord) (result : IngestResult) : DocRecord :=
  { doc with
    status := .ready
    pageCount := some result.pageCount
    chunkCount := some result.chunkCount }

/-- The `.catch` continuation of `uploadDocument`: on `processDocument`
failure, spread the old record and set `status: 'failed'` plus the message. -/
def onReject (doc : DocRecord) (msg : String) : DocRecord :=
  { doc with status := .failed, error := some msg }

/-- The background settlement of the `processDocument` promise: exactly one
of the `.then` / `.catch` handlers runs, according to the outcome. -/
def settle (doc : DocRecord) (outcome : Except String IngestResult) : DocRecord :=
  match outcome with
  | .ok result => onResolve doc result
  | .error msg => onReject doc msg

/-! ## Chunker

`processDocument` delegates chunking to `RecursiveCharacterTextSplitter`
from `@langchain/textsplitters` with `chunkSize: 1000, chunkOverlap: 200`.
-/

/-- Modelled from the spec: the chunker implementation
(`RecursiveCharacterTextSplitter` of `@langchain/textsplitters`) is an
external dependency whose source is not part of this repository. The spec
describes it as a component that "splits extracted document text into
overlapping fixed-size text windows" of size 1000 with overlap 200, chunks
"at most 1000 characters, consecutive chunks overlapping by up to 200
characters, preserving original text order", which "must never drop trailing
text (last chunk may be shorter than 1000)". This is the standard sliding
window of width 1000 and stride 1000 − 200 = 800 over the character
sequence. -/
def chunkList (s : List Char) : List (List Char) :=
  if h : s.length ≤ 1000 then [s]
  else s.take 1000 :: chunkList (s.drop 800)
termination_by s.length
decreasing_by
  simp only [List.length_drop]
  omega

/-- The lengths of the sliding-window chunks, as a function of the input
length alone. -/
def chunkLens (n : Nat) : List Nat :=
  if n ≤ 1000 then [n]
  else 1000 :: chunkLens (n - 800)
termination_by n

/-- The chunk lengths produced by `chunkList` depend only on the length of
the input text. -/
theorem chunkList_lengths (s : List Char) :
    (chunkList s).map List.length = chunkLens s.length := by
  induction s using chunkList.induct with
  | case1 s h =>
    rw [chunkList, chunkLens]
    simp [h]
  | case2 s h ih =>
    rw [chunkList, chunkLens]
    have hlen : (s.take 1000).length = 1000 := by
      simp only [List.length_take]
      omega
    simp only [dif_neg h, if_neg h, List.map_cons, hlen, ih, List.length_drop]

/-! ## Vector store (pineconeService.js `storeVectors`) -/

/-- A chunk as handed to `storeVectors`: its text and the optional page
provenance read from `chunk.metadata?.loc?.pageNumber ||
chunk.metadata?.pageNumber`. -/
structure Chunk where
  pageContent : String
  pageNumber : Option Nat
  deriving DecidableEq, Repr

/-- The metadata object built for each Pinecone record. -/
structure VectorMeta where
  documentId : String
  fileName : String
  text : String
  chunkIndex : Nat
  pageNumber : Option Nat
  deriving DecidableEq, Repr

/-- One Pinecone record: `{ id, values, metadata }`. Embedding vectors are
opaque to this development and modelled as integer lists. -/
structure VectorRecord where
  id : String
  values : List Int
  metadata : VectorMeta
  deriving DecidableEq, Repr

/-- The record construction inside `storeVectors`, written as a recursion
carrying the JS map index `i`. -/
def buildRecordsAux (documentId fileName : String) (vectors : List (List Int)) :
    Nat → List Chunk → List VectorRecord
  | _, [] => []
  | i, chunk :: rest =>
    { id := documentId ++ "-chunk-" ++ toString i
      values := vectors.getD i []
      metadata :=
        { documentId := documentId
          fileName := fileName
          text := chunk.pageContent
          chunkIndex := i
          pageNumber := chunk.pageNumber } }
      :: buildRecordsAux documentId fileName vectors (i + 1) rest

/-- The record construction inside `storeVectors`:
`chunks.map((chunk, i) => ({ id: documentId + '-chunk-' + i, values: vectors[i], ... }))`.
`vectors.getD i []` stands for the JS indexing `vectors[i]` (the length guard
in `storeVectors` rules the default out). -/
def buildRecords (documentId : String) (chunks : List Chunk)
    (vectors : List (List Int)) (fileName : String) : List VectorRecord :=
  buildRecordsAux documentId fileName vectors 0 chunks

/-- The external Pinecone index, keyed by record id; upsert-by-id semantics. -/
def VIndex : Type := String → Option VectorRecord

/-- Upserting one record: overwrite whatever is stored under its id. -/
def upsertRecord (idx : VIndex) (r : VectorRecord) : VIndex :=
  fun id => if id = r.id then some r else idx id

/-- Upserting a list of records in order. `storeVectors` sends the records in
sequential slices of 100; sequential batches of in-order upserts perform
exactly the in-order upsert of the whole list. -/
def upsertAll (idx : VIndex) (rs : List VectorRecord) : VIndex :=
  rs.foldl upsertRecord idx

/-- `storeVectors(documentId, chunks, vectors, fileName)`: the guard clauses
and the batched upsert, with the catch-block wrapping of error messages. -/
def storeVectors (idx : VIndex) (documentId : String) (chunks : List Chunk)
    (vectors : List (List Int)) (fileName : String) : Except String VIndex :=
  if chunks.isEmpty then
    .error "Failed to store vectors: No chunks provided for storage"
  else if vectors.isEmpty then
    .error "Failed to store vectors: No vectors provided for storage"
  else if chunks.length ≠ vectors.length then
    .error "Failed to store vectors: Number of chunks and vectors must match"
  else
    .ok (upsertAll idx (buildRecords documentId chunks vectors fileName))

/-! ## Ingestion pipeline (documentService.js `processDocument`) -/

/-- What `pdf-parse` returns to `processDocument`: the extracted text and the
page count. -/
structure PdfData where
  text : String
  numpages : Nat
  deriving DecidableEq, Repr

/-- The chunk objects produced for the single whole-document input built in
`processDocument`: the splitter windows over the extracted text. The input
document carries no per-page location, so the chunks carry no page number. -/
def splitterChunks (text : String) : List Chunk :=
  (chunkList text.data).map (fun cs => { pageContent := String.mk cs, pageNumber := none })

/-- External effects available to the ingestion pipeline: the batch
embedding call `embeddings.embedDocuments(texts)`. -/
structure IngestEnv where
  embedDocs : List String → Except String (List (List Int))

/-- The body of `processDocument`'s `try` block, starting after the file-read:
extraction guard, chunking, zero-chunk guard, batch embedding, vector
storage. `pdf = none` models `pdf-parse` yielding no data. -/
def processDocumentBody (env : IngestEnv) (idx : VIndex) (pdf : Option PdfData)
    (documentId fileName : String) : Except String (IngestResult × VIndex) :=
  match pdf with
  | none => .error "Failed to extract text from PDF or PDF is empty"
  | some pdfData =>
    if jsTrimEmpty pdfData.text then
      .error "Failed to extract text from PDF or PDF is empty"
    else
      let chunks := splitterChunks pdfData.text
      if chunks.isEmpty then
        .error "No chunks created from document"
      else
        match env.embedDocs (chunks.map (·.pageContent)) with
        | .error m => .error m
        | .ok vectors =>
          match storeVectors idx documentId chunks vectors fileName with
          | .error m => .error m
          | .ok idx2 =>
            .ok ({ pageCount := pdfData.numpages, chunkCount := chunks.length }, idx2)

/-- `processDocument` with its outer `catch`:
`throw new Error('Failed to process PDF document: ' + error.message)`. -/
def processDocument (env : IngestEnv) (idx : VIndex) (pdf : Option PdfData)
    (documentId fileName : String) : Except String (IngestResult × VIndex) :=
  match processDocumentBody env idx pdf documentId fileName with
  | .error m => .error ("Failed to process PDF document: " ++ m)
  | .ok r => .ok r

/-! ## Registry operations on one document (C1) -/

/-- Everything the code ever does to an existing entry of the `documents`
map: the single background settlement of the `processDocument` promise
(`.then` / `.catch` in `uploadDocument`), and the pure reads performed by
`getDocument` and `handleQuery` (`documents.get`, no `set`). -/
inductive RegistryOp
  | complete (outcome : Except String IngestResult)
  | readStatus
  deriving Repr

/-- Is this operation the background settlement? -/
def RegistryOp.isComplete : RegistryOp → Bool
  | .complete _ => true
  | .readStatus => false

/-- Effect of one registry operation on the stored record. -/
def applyOp (doc : DocRecord) : RegistryOp → DocRecord
  | .complete outcome => settle doc outcome
  | .readStatus => doc

/-- The sequence of statuses the stored record passes through, starting from
`doc`, under a sequence of operations. -/
def statusTrace (doc : DocRecord) (ops : List RegistryOp) : List Status :=
  (ops.scanl applyOp doc).map (·.status)

/-- A legal step of the ingestion status machine: the status stays put, or
moves from `processing` to one of the terminal statuses. -/
def stepOk (s t : Status) : Prop :=
  t = s ∨ (s = .processing ∧ (t = .ready ∨ t = .failed))

/-- Number of adjacent strict status changes along a trace. -/
def statusChanges : List Status → Nat
  | [] => 0
  | [_] => 0
  | a :: b :: t => (if a = b then 0 else 1) + statusChanges (b :: t)

/-! ## Query pipeline (queryService.js) -/

/-- One conversation turn `{ role, content }` as supplied by the caller. -/
structure Turn where
  role : String
  content : String
  deriving DecidableEq, Repr

/-- The `(answer, timestamp)` pair produced by `generateAnswer` and by the
empty-context fallback inside `processQuery`. -/
structure QueryResult where
  answer : String
  timestamp : String
  deriving DecidableEq, Repr

/-- The transcript accumulation shared by `transformQuery` and
`generateAnswer`: `role === 'user' ? 'User' : 'Assistant'` plus the content,
one line per turn. -/
def historyTranscript (history : List Turn) : String :=
  history.foldl
    (fun acc m =>
      acc ++ (if m.role = "user" then "User" else "Assistant") ++ ": " ++ m.content ++ "\n")
    ""

/-- The prompt template of `transformQuery`. -/
def buildRewritePrompt (question : String) (history : List Turn) : String :=
  "Previous conversation:\n" ++ historyTranscript history ++
  "\n\nCurrent question: " ++ question ++
  "\n\nBased on the conversation history above, rewrite the current question as a standalone question that includes all necessary context. If the question already has all the context, return it as-is.\n\nStandalone question:"

/-- `transformQuery(question, history)`: empty history short-circuits with no
provider call; otherwise one provider call whose trimmed response is
returned, any provider error (including a missing API key thrown by
`getGeminiModel`) being swallowed in favour of the original question. The
second component lists the prompts actually sent to the provider. -/
def transformQuery (invoke : String → Except String String)
    (question : String) (history : List Turn) : String × List String :=
  if history.isEmpty then
    (question, [])
  else
    let prompt := buildRewritePrompt question history
    match invoke prompt with
    | .ok response => (jsTrim response, [prompt])
    | .error _ => (question, [prompt])

/-- One Pinecone match as consumed by `searchDocuments`: the rendered
relevance score (`result.score?.toFixed(4)`, a provider-side float rendered
externally; `none` stands for an absent score, shown as `'N/A'`) and the
`metadata?.text` field (`none` stands for absent metadata, shown as `''`). -/
structure SearchMatch where
  score : Option String
  text : Option String
  deriving DecidableEq, Repr

/-- The per-match block built in `searchDocuments`. -/
def formatMatch (i : Nat) (m : SearchMatch) : String :=
  "[Chunk " ++ toString (i + 1) ++ ", Relevance: " ++ m.score.getD "N/A" ++ "]\n" ++
    m.text.getD ""

/-- Index-carrying map over the matches, mirroring `results.map((r, i) => ...)`. -/
def formatMatchesAux : Nat → List SearchMatch → List String
  | _, [] => []
  | i, m :: rest => formatMatch i m :: formatMatchesAux (i + 1) rest

/-- The joined context string built in `searchDocuments`. -/
def formatContext (hits : List SearchMatch) : String :=
  String.intercalate "\n\n---\n\n" (formatMatchesAux 0 hits)

/-- External effects available to one `processQuery` call, indexed by the
attempt number of the retry loop so that attempt-dependent outcomes
(fail-then-succeed) are expressible. -/
structure QueryEnv where
  /-- `model.invoke(prompt)` inside `transformQuery` on attempt `n`. -/
  rewriteLLM : Nat → String → Except String String
  /-- `embedText(query)` followed by `searchVectors(documentId, vec, topK)`
  inside `searchDocuments` on attempt `n`: either the match list or the
  (already wrapped) inner error message. -/
  searchStep : Nat → String → String → Except String (List SearchMatch)
  /-- `model.invoke(prompt)` inside `generateAnswer` on attempt `n`. -/
  genLLM : Nat → String → Except String String
  /-- `new Date().toISOString()` as observed on attempt `n`. -/
  now : Nat → String

/-- `searchDocuments(documentId, query)`: runs the embedding + vector query,
wraps any error as `'Failed to search documents: ...'`, returns `''` when
there are no matches and the formatted context otherwise. -/
def searchDocuments (env : QueryEnv) (attempt : Nat) (documentId query : String) :
    Except String String :=
  match env.searchStep attempt documentId query with
  | .error m => .error ("Failed to search documents: " ++ m)
  | .ok hits =>
    if hits.isEmpty then .ok ""
    else .ok (formatContext hits)

/-- The fixed persona preamble of `generateAnswer`. -/
def systemInstruction : String :=
  "You are an expert in Data Structures and Algorithms (DSA). Your role is to provide clear, accurate, and helpful answers based on the provided document context.\n\nGuidelines:\n- Answer questions based primarily on the provided context\n- If the context doesn't contain enough information, acknowledge this and provide what you can\n- Be concise but thorough in your explanations\n- Use examples when helpful\n- If asked about code or algorithms, explain them step by step\n- Maintain a helpful and educational tone"

/-- The conversation-context block of `generateAnswer` (empty when the
history is empty). -/
def genConversationContext (history : List Turn) : String :=
  if history.isEmpty then ""
  else "\n\nPrevious conversation:\n" ++ historyTranscript history

/-- The prompt template of `generateAnswer`. -/
def buildGenPrompt (query context : String) (history : List Turn) : String :=
  systemInstruction ++ "\n\nDocument Context:\n" ++ context ++ "\n" ++
    genConversationContext history ++ "\n\nCurrent Question: " ++ query ++
    "\n\nPlease provide a helpful answer based on the document context and conversation history:"

/-- `generateAnswer(query, context, history)`: one provider call, trimmed
answer plus timestamp on success, `'Failed to generate answer: ...'` on
failure. -/
def generateAnswer (env : QueryEnv) (attempt : Nat) (query context : String)
    (history : List Turn) : Except String QueryResult :=
  match env.genLLM attempt (buildGenPrompt query context history) with
  | .ok content => .ok { answer := jsTrim content, timestamp := env.now attempt }
  | .error m => .error ("Failed to generate answer: " ++ m)

/-- The fixed fallback answer returned when retrieval yields no usable
context. -/
def noRelevantInfoAnswer : String :=
  "I couldn't find any relevant information in the document to answer your question. Could you please rephrase or ask something else?"

/-- Observable events of one `processQuery` call. -/
inductive QEvent
  | rewrote (attempt : Nat)
  | searched (attempt : Nat)
  | generated (attempt : Nat)
  | waited (ms : Nat)
  deriving DecidableEq, Repr

/-- Number of attempts observed: every attempt begins by invoking
`transformQuery`. -/
def numAttempts (evs : List QEvent) : Nat :=
  (evs.filter (fun e => match e with | .rewrote _ => true | _ => false)).length

/-- Number of `generateAnswer` provider invocations observed. -/
def numGenerated (evs : List QEvent) : Nat :=
  (evs.filter (fun e => match e with | .generated _ => true | _ => false)).length

/-- The body of `processQuery`'s `try` block on attempt `n`: transform,
search, empty-context short-circuit, generate; paired with the events it
produces. -/
def attemptRun (env : QueryEnv) (documentId question : String) (history : List Turn)
    (n : Nat) : Except String QueryResult × List QEvent :=
  let sq := (transformQuery (env.rewriteLLM n) question history).1
  match searchDocuments env n documentId sq with
  | .error m => (.error m, [.rewrote n, .searched n])
  | .ok ctx =>
    if jsTrimEmpty ctx then
      (.ok { answer := noRelevantInfoAnswer, timestamp := env.now n }, [.rewrote n, .searched n])
    else
      match generateAnswer env n sq ctx history with
      | .error m => (.error m, [.rewrote n, .searched n, .generated n])
      | .ok r => (.ok r, [.rewrote n, .searched n, .generated n])

/-- `const maxRetries = 1` in `processQuery`. -/
def maxRetries : Nat := 1

/-- The `for (let attempt = 0; attempt <= maxRetries; attempt++)` loop of
`processQuery`. The fuel counts the loop iterations still allowed; the
fuel-0 result models the unreachable `throw lastError || new Error('Query
processing failed')` after the loop. On a caught error: errors whose message
contains `'search'` are rethrown at once; at `attempt === maxRetries` the
error is rethrown; otherwise the loop waits `2 ** attempt * 1000` ms and
retries. -/
def processQueryLoop (env : QueryEnv) (documentId question : String)
    (history : List Turn) :
    Nat → Nat → List QEvent → Except String QueryResult × List QEvent
  | 0, _, acc => (.error "Query processing failed", acc)
  | fuel + 1, attempt, acc =>
    let step := attemptRun env documentId question history attempt
    let acc2 := acc ++ step.2
    match step.1 with
    | .ok r => (.ok r, acc2)
    | .error m =>
      if includesStr m "search" then (.error m, acc2)
      else if attempt = maxRetries then (.error m, acc2)
      else
        processQueryLoop env documentId question history fuel (attempt + 1)
          (acc2 ++ [.waited (2 ^ attempt * 1000)])

/-- `processQuery(documentId, question, history)` with its event trace. -/
def processQuery (env : QueryEnv) (documentId question : String)
    (history : List Turn) : Except String QueryResult × List QEvent :=
  processQueryLoop env documentId question history (maxRetries + 1) 0 []

/-! ## Query controller (queryController.js `handleQuery`) -/

/-- The `AppError` shape of `middleware/errorHandler.js`. -/
structure AppError where
  message : String
  statusCode : Nat
  code : String
  deriving DecidableEq, Repr

/-- The success payload of `handleQuery`'s JSON response. -/
structure QueryResponse where
  answer : String
  timestamp : String
  deriving DecidableEq, Repr

/-- JS `document.error || 'Unknown error'`: an absent or empty stored error
message falls back to `'Unknown error'`. -/
def jsOrUnknown : Option String → String
  | some s => if s = "" then "Unknown error" else s
  | none => "Unknown error"

/-- `handleQuery`: looks the document up, gates on its status
(`DOCUMENT_NOT_FOUND` / `DOCUMENT_PROCESSING` / `DOCUMENT_FAILED` /
`DOCUMENT_NOT_READY`), and only then runs `queryService.processQuery`. A
`processQuery` rejection carries no `statusCode`/`code`, so the global error
handler renders it as `500` / `'INTERNAL_ERROR'`. The boolean records
whether the query pipeline was invoked at all. -/
def handleQuery (documents : String → Option DocRecord) (env : QueryEnv)
    (documentId question : String) (history : List Turn) :
    Except AppError QueryResponse × Bool :=
  match documents documentId with
  | none =>
    (.error { message := "Document not found", statusCode := 404, code := "DOCUMENT_NOT_FOUND" },
      false)
  | some document =>
    if document.status = .processing then
      (.error
        { message := "Document is still being processed. Please try again in a moment."
          statusCode := 400
          code := "DOCUMENT_PROCESSING" },
        false)
    else if document.status = .failed then
      (.error
        { message := "Document processing failed: " ++ jsOrUnknown document.error ++
            ". Please upload the document again."
          statusCode := 400
          code := "DOCUMENT_FAILED" },
        false)
    else if document.status ≠ .ready then
      (.error
        { message := "Document is not ready for queries"
          statusCode := 400
          code := "DOCUMENT_NOT_READY" },
        false)
    else
      match (processQuery env documentId question history).1 with
      | .ok r => (.ok { answer := r.answer, timestamp := r.timestamp }, true)
      | .error m =>
        (.error { message := m, statusCode := 500, code := "INTERNAL_ERROR" }, true)

/-! ## Concrete fixtures used to instantiate the theorems -/

/-- A concrete 2400-character extracted text. -/
def sample2400 : String := String.mk (List.replicate 2400 'a')

/-- An empty Pinecone index. -/
def emptyIndex : VIndex := fun _ => none

/-- An embedding provider that answers every batch with unit vectors. -/
def constEmbedEnv : IngestEnv :=
  { embedDocs := fun ts => .ok (ts.map (fun _ => [0])) }

/-- A query environment whose generation call fails on the first attempt and
succeeds on the second, while retrieval always returns one match. -/
def envGenFailThenOk : QueryEnv :=
  { rewriteLLM := fun _ _ => .error "llm down"
    searchStep := fun _ _ _ => .ok [{ score := some "0.9000", text := some "chunk text" }]
    genLLM := fun n _ => if n = 0 then .error "boom" else .ok "the answer"
    now := fun _ => "2024-01-01T00:00:00.000Z" }

/-- A query environment whose vector search always fails. -/
def envSearchFail : QueryEnv :=
  { rewriteLLM := fun _ _ => .ok "q"
    searchStep := fun _ _ _ => .error "Failed to search vectors: index down"
    genLLM := fun _ _ => .ok "unused"
    now := fun _ => "2024-01-01T00:00:00.000Z" }

/-- A query environment whose vector search returns no matches. -/
def envNoMatches : QueryEnv :=
  { rewriteLLM := fun _ _ => .ok "q"
    searchStep := fun _ _ _ => .ok []
    genLLM := fun _ _ => .ok "unused"
    now := fun _ => "2024-01-01T00:00:00.000Z" }

/-- A document record still being processed. -/
def docProcessing : DocRecord :=
  { documentId := "11111111-1111-1111-1111-111111111111"
    fileName := "notes.pdf"
    status := .processing
    pageCount := none
    chunkCount := none
    error := none }

/-- A document record whose ingestion failed. -/
def docFailed : DocRecord :=
  { documentId := "22222222-2222-2222-2222-222222222222"
    fileName := "notes.pdf"
    status := .failed
    pageCount := none
    chunkCount := none
    error := some "Failed to process PDF document: boom" }

/-- A registry holding exactly one document. -/
def oneDocMap (doc : DocRecord) : String → Option DocRecord :=
  fun id => if id = doc.documentId then some doc else none

/-! ## Helper lemmas about one attempt of `processQuery` -/

/-- The event trace of one attempt: rewrite and search always run, the
generation call runs in at most one further event. -/
theorem attemptRun_trace (env : QueryEnv) (d q : String) (h : List Turn) (n : Nat) :
    (attemptRun env d q h n).2 = [.rewrote n, .searched n] ∨
    (attemptRun env d q h n).2 = [.rewrote n, .searched n, .generated n] := by
  cases hs : searchDocuments env n d ((transformQuery (env.rewriteLLM n) q h).1) with
  | error m => simp [attemptRun, hs]
  | ok ctx =>
    by_cases hc : jsTrimEmpty ctx
    · simp [attemptRun, hs, hc]
    · cases hg : generateAnswer env n ((transformQuery (env.rewriteLLM n) q h).1) ctx h <;>
        simp [attemptRun, hs, hc, hg]

/-- Every attempt is observed as exactly one `rewrote` event. -/
theorem attemptRun_numAttempts (env : QueryEnv) (d q : String) (h : List Turn) (n : Nat) :
    numAttempts (attemptRun env d q h n).2 = 1 := by
  rcases attemptRun_trace env d q h n with ht | ht <;> rw [ht] <;> rfl

/-- The rewrite step is part of every attempt's trace. -/
theorem attemptRun_rewrote_mem (env : QueryEnv) (d q : String) (h : List Turn) (n : Nat) :
    QEvent.rewrote n ∈ (attemptRun env d q h n).2 := by
  rcases attemptRun_trace env d q h n with ht | ht <;> rw [ht] <;> simp

/-- `numAttempts` is additive over trace concatenation. -/
theorem numAttempts_append (a b : List QEvent) :
    numAttempts (a ++ b) = numAttempts a + numAttempts b := by
  simp [numAttempts, List.filter_append]

/-- A wait event is not an attempt. -/
theorem numAttempts_waited (k : Nat) : numAttempts [QEvent.waited k] = 0 := rfl

/-! ## Claim theorems -/

/-- C3: if the first attempt of `processQuery` throws an error whose message
contains `'search'` (the code's retrieval-failure tag), `processQuery`
surfaces exactly that error and exactly one attempt is observed. -/
theorem processQuery_search_tagged_error_single_attempt
    (env : QueryEnv) (d q : String) (h : List Turn) (m : String)
    (he : (attemptRun env d q h 0).1 = .error m)
    (ht : includesStr m "search" = true) :
    (processQuery env d q h).1 = .error m ∧
    numAttempts (processQuery env d q h).2 = 1 := by
  have hpq : processQuery env d q h = (.error m, [] ++ (attemptRun env d q h 0).2) := by
    simp [processQuery, processQueryLoop, he, ht]
  rw [hpq]
  exact ⟨rfl, by simp only [List.nil_append, attemptRun_numAttempts]⟩

/-- C3 witness: a concrete environment whose vector search fails; the
wrapped message is retrieval-tagged, the error is surfaced unchanged and a
single attempt is observed. -/
theorem processQuery_search_tagged_error_single_attempt_witness :
    (attemptRun envSearchFail "d" "q" [] 0).1 =
        .error "Failed to search documents: Failed to search vectors: index down" ∧
    includesStr "Failed to search documents: Failed to search vectors: index down" "search" = true ∧
    ((processQuery envSearchFail "d" "q" []).1 =
        .error "Failed to search documents: Failed to search vectors: index down" ∧
      numAttempts (processQuery envSearchFail "d" "q" []).2 = 1) :=
  ⟨rfl, by decide,
    processQuery_search_tagged_error_single_attempt envSearchFail "d" "q" []
      "Failed to search documents: Failed to search vectors: index down" rfl (by decide)⟩

/-- C4 counterexample: with a generation failure on the first attempt the
retry re-executes the whole body, including the rewrite step (`rewrote 1` is
observed and two attempts are counted), refuting "only the steps after
rewrite are retried". -/
theorem processQuery_retry_reruns_rewrite_counterexample :
    (attemptRun envGenFailThenOk "d" "q" [] 0).1 = .error "Failed to generate answer: boom" ∧
    includesStr "Failed to generate answer: boom" "search" = false ∧
    QEvent.rewrote 1 ∈ (processQuery envGenFailThenOk "d" "q" []).2 ∧
    numAttempts (processQuery envGenFailThenOk "d" "q" []).2 = 2 :=
  ⟨rfl, by decide, by decide, by decide⟩

/-- C4 (amended): on a non-retrieval-tagged failure of the first attempt the
whole attempt body — rewrite included — is retried exactly once after a
1000 ms wait; a second-attempt success is returned as the result, and a
second-attempt failure is surfaced as the final error. -/
theorem processQuery_retry_once_after_delay
    (env : QueryEnv) (d q : String) (h : List Turn) (m : String)
    (he : (attemptRun env d q h 0).1 = .error m)
    (ht : includesStr m "search" = false) :
    (processQuery env d q h).2 =
      (attemptRun env d q h 0).2 ++ [.waited 1000] ++ (attemptRun env d q h 1).2 ∧
    numAttempts (processQuery env d q h).2 = 2 ∧
    QEvent.rewrote 1 ∈ (processQuery env d q h).2 ∧
    (∀ r, (attemptRun env d q h 1).1 = .ok r → (processQuery env d q h).1 = .ok r) ∧
    (∀ m2, (attemptRun env d q h 1).1 = .error m2 → (processQuery env d q h).1 = .error m2) := by
  have hmem : QEvent.rewrote 1 ∈
      (attemptRun env d q h 0).2 ++ [QEvent.waited 1000] ++ (attemptRun env d q h 1).2 := by
    have := attemptRun_rewrote_mem env d q h 1
    simp [List.mem_append, this]
  have hcount : numAttempts
      ((attemptRun env d q h 0).2 ++ [QEvent.waited 1000] ++ (attemptRun env d q h 1).2) = 2 := by
    rw [numAttempts_append, numAttempts_append, attemptRun_numAttempts,
      attemptRun_numAttempts, numAttempts_waited]
  cases h1 : (attemptRun env d q h 1).1 with
  | ok r =>
    have hpq : processQuery env d q h =
        (.ok r, (attemptRun env d q h 0).2 ++ [.waited 1000] ++ (attemptRun env d q h 1).2) := by
      simp [processQuery, processQueryLoop, maxRetries, he, ht, h1]
    rw [hpq]
    refine ⟨rfl, hcount, hmem, ?_, ?_⟩
    · intro r' hr'
      injection hr' with hrr
      rw [hrr]
    · intro m2 hm2
      exact absurd hm2 (by simp)
  | error m2 =>
    have hpq : processQuery env d q h =
        (.error m2, (attemptRun env d q h 0).2 ++ [.waited 1000] ++ (attemptRun env d q h 1).2) := by
      by_cases ht2 : includesStr m2 "search" <;>
        simp [processQuery, processQueryLoop, maxRetries, he, ht, h1, ht2]
    rw [hpq]
    refine ⟨rfl, hcount, hmem, ?_, ?_⟩
    · intro r' hr'
      exact absurd hr' (by simp)
    · intro m2' hm2
      injection hm2 with hmm
      rw [hmm]

/-- C4 witness: a generation failure on attempt 1 followed by success on
attempt 2 — the hypotheses of the amended retry theorem hold concretely. -/
theorem processQuery_retry_once_after_delay_witness :
    (attemptRun envGenFailThenOk "d" "q" [] 0).1 = .error "Failed to generate answer: boom" ∧
    includesStr "Failed to generate answer: boom" "search" = false ∧
    ((processQuery envGenFailThenOk "d" "q" []).2 =
      (attemptRun envGenFailThenOk "d" "q" [] 0).2 ++ [.waited 1000] ++
        (attemptRun envGenFailThenOk "d" "q" [] 1).2 ∧
    numAttempts (processQuery envGenFailThenOk "d" "q" []).2 = 2 ∧
    QEvent.rewrote 1 ∈ (processQuery envGenFailThenOk "d" "q" []).2 ∧
    (∀ r, (attemptRun envGenFailThenOk "d" "q" [] 1).1 = .ok r →
      (processQuery envGenFailThenOk "d" "q" []).1 = .ok r) ∧
    (∀ m2, (attemptRun envGenFailThenOk "d" "q" [] 1).1 = .error m2 →
      (processQuery envGenFailThenOk "d" "q" []).1 = .error m2)) :=
  ⟨rfl, by decide,
    processQuery_retry_once_after_delay envGenFailThenOk "d" "q" []
      "Failed to generate answer: boom" rfl (by decide)⟩

/-- C5: when retrieval yields an empty or whitespace-only context on the
first attempt, `processQuery` returns the fixed fallback answer with a
timestamp and the answer generator is never invoked. -/
theorem processQuery_empty_context_fallback
    (env : QueryEnv) (d q : String) (h : List Turn) (ctx : String)
    (hs : searchDocuments env 0 d ((transformQuery (env.rewriteLLM 0) q h).1) = .ok ctx)
    (hc : jsTrimEmpty ctx = true) :
    (processQuery env d q h).1 =
      .ok { answer := noRelevantInfoAnswer, timestamp := env.now 0 } ∧
    numGenerated (processQuery env d q h).2 = 0 := by
  have ha : attemptRun env d q h 0 =
      (.ok { answer := noRelevantInfoAnswer, timestamp := env.now 0 },
        [.rewrote 0, .searched 0]) := by
    simp [attemptRun, hs, hc]
  have hpq : processQuery env d q h =
      (.ok { answer := noRelevantInfoAnswer, timestamp := env.now 0 },
        [] ++ [QEvent.rewrote 0, QEvent.searched 0]) := by
    simp [processQuery, processQueryLoop, ha]
  rw [hpq]
  exact ⟨rfl, rfl⟩

/-- C5 witness: retrieval returning zero matches yields the empty context,
the fixed fallback answer and no generator call. -/
theorem processQuery_empty_context_fallback_witness :
    searchDocuments envNoMatches 0 "d"
        ((transformQuery (envNoMatches.rewriteLLM 0) "q" []).1) = .ok "" ∧
    jsTrimEmpty "" = true ∧
    ((processQuery envNoMatches "d" "q" []).1 =
      .ok { answer := noRelevantInfoAnswer, timestamp := envNoMatches.now 0 } ∧
    numGenerated (processQuery envNoMatches "d" "q" []).2 = 0) :=
  ⟨rfl, rfl,
    processQuery_empty_context_fallback envNoMatches "d" "q" [] "" rfl rfl⟩

/-- C7: any provider error during the rewrite is swallowed and the original
question is returned unchanged. -/
theorem transformQuery_swallows_provider_error
    (invoke : String → Except String String) (q : String) (h : List Turn) (e : String)
    (he : invoke (buildRewritePrompt q h) = .error e) :
    (transformQuery invoke q h).1 = q := by
  by_cases hh : h.isEmpty <;> simp [transformQuery, hh, he]

/-- C7 witness: a concretely failing provider still yields the original
question. -/
theorem transformQuery_swallows_provider_error_witness :
    (fun _ : String => (.error "llm down" : Except String String))
        (buildRewritePrompt "q" [{ role := "user", content := "hi" }]) = .error "llm down" ∧
    (transformQuery (fun _ => .error "llm down") "q" [{ role := "user", content := "hi" }]).1 = "q" :=
  ⟨rfl,
    transformQuery_swallows_provider_error (fun _ => .error "llm down") "q"
      [{ role := "user", content := "hi" }] "llm down" rfl⟩

/-- C8: with an empty (or absent, the JS default `[]`) history the rewrite
returns the question unchanged and makes zero provider calls. -/
theorem transformQuery_empty_history_identity
    (invoke : String → Except String String) (q : String) :
    transformQuery invoke q [] = (q, []) := rfl

/-- C9: querying a document whose status is `processing` is rejected with
HTTP 400 and code `DOCUMENT_PROCESSING`, and the query pipeline is never
invoked. -/
theorem handleQuery_processing_rejected
    (documents : String → Option DocRecord) (env : QueryEnv)
    (id q : String) (h : List Turn) (doc : DocRecord)
    (hdoc : documents id = some doc) (hst : doc.status = .processing) :
    handleQuery documents env id q h =
      (.error
        { message := "Document is still being processed. Please try again in a moment."
          statusCode := 400
          code := "DOCUMENT_PROCESSING" },
        false) := by
  simp [handleQuery, hdoc, hst]

/-- C9 witness: a concrete registry with one `processing` document. -/
theorem handleQuery_processing_rejected_witness :
    oneDocMap docProcessing docProcessing.documentId = some docProcessing ∧
    docProcessing.status = .processing ∧
    handleQuery (oneDocMap docProcessing) envNoMatches docProcessing.documentId "q" [] =
      (.error
        { message := "Document is still being processed. Please try again in a moment."
          statusCode := 400
          code := "DOCUMENT_PROCESSING" },
        false) :=
  ⟨by simp [oneDocMap], rfl,
    handleQuery_processing_rejected (oneDocMap docProcessing) envNoMatches
      docProcessing.documentId "q" [] docProcessing (by simp [oneDocMap]) rfl⟩

/-- C10: querying a document whose status is `failed` is rejected with HTTP
400 and code `DOCUMENT_FAILED`, the stored error message embedded in the
response message, and the query pipeline is never invoked. -/
theorem handleQuery_failed_rejected
    (documents : String → Option DocRecord) (env : QueryEnv)
    (id q : String) (h : List Turn) (doc : DocRecord) (e : String)
    (hdoc : documents id = some doc) (hst : doc.status = .failed)
    (herr : doc.error = some e) (hne : e ≠ "") :
    handleQuery documents env id q h =
      (.error
        { message := "Document processing failed: " ++ e ++ ". Please upload the document again."
          statusCode := 400
          code := "DOCUMENT_FAILED" },
        false) := by
  simp [handleQuery, hdoc, hst, jsOrUnknown, herr, hne]

/-- C10 witness: a concrete registry with one `failed` document carrying a
stored error message. -/
theorem handleQuery_failed_rejected_witness :
    oneDocMap docFailed docFailed.documentId = some docFailed ∧
    docFailed.status = .failed ∧
    docFailed.error = some "Failed to process PDF document: boom" ∧
    "Failed to process PDF document: boom" ≠ "" ∧
    handleQuery (oneDocMap docFailed) envNoMatches docFailed.documentId "q" [] =
      (.error
        { message := "Document processing failed: Failed to process PDF document: boom. Please upload the document again."
          statusCode := 400
          code := "DOCUMENT_FAILED" },
        false) :=
  ⟨by simp [oneDocMap], rfl, rfl, by decide,
    handleQuery_failed_rejected (oneDocMap docFailed) envNoMatches
      docFailed.documentId "q" [] docFailed "Failed to process PDF document: boom"
      (by simp [oneDocMap]) rfl rfl (by decide)⟩

/-! ## Status-trace lemmas (C1) -/

/-- Empty operation sequence: the trace is just the current status. -/
theorem statusTrace_nil (d : DocRecord) : statusTrace d [] = [d.status] := rfl

/-- One step of the status trace. -/
theorem statusTrace_cons (d : DocRecord) (op : RegistryOp) (ops : List RegistryOp) :
    statusTrace d (op :: ops) = d.status :: statusTrace (applyOp d op) ops := by
  simp [statusTrace, List.scanl]

/-- A status trace always starts at the current status. -/
theorem statusTrace_headq (d : DocRecord) (ops : List RegistryOp) :
    (statusTrace d ops).head? = some d.status := by
  cases ops <;> simp [statusTrace_nil, statusTrace_cons]

/-- Pure reads leave the whole trace constant. -/
theorem statusTrace_all_reads (d : DocRecord) (ops : List RegistryOp)
    (h : ∀ op ∈ ops, op.isComplete = false) :
    statusTrace d ops = List.replicate (ops.length + 1) d.status := by
  induction ops generalizing d with
  | nil => simp [statusTrace_nil]
  | cons op ops ih =>
    have hop := h op (by simp)
    cases op with
    | complete o => simp [RegistryOp.isComplete] at hop
    | readStatus =>
      rw [statusTrace_cons]
      have happ : applyOp d .readStatus = d := rfl
      rw [happ, ih d (fun o ho => h o (by simp [ho]))]
      simp [List.replicate_succ]

/-- Constant traces satisfy the status step relation. -/
theorem chainOk_replicate (n : Nat) (s : Status) :
    List.Chain' stepOk (List.replicate n s) := by
  induction n with
  | zero => simp
  | succ n ih =>
    cases n with
    | zero => simp
    | succ m =>
      rw [List.replicate_succ, List.replicate_succ]
      exact List.Chain'.cons (Or.inl rfl) ih

/-- A status with matching head absorbs into the change count. -/
theorem statusChanges_cons_of_head (a : Status) (l : List Status) (h : l.head? = some a) :
    statusChanges (a :: l) = statusChanges l := by
  cases l with
  | nil => simp at h
  | cons b t =>
    simp only [List.head?_cons, Option.some.injEq] at h
    rw [h]
    show (if a = a then 0 else 1) + statusChanges (a :: t) = statusChanges (a :: t)
    rw [if_pos rfl]
    omega

/-- Constant traces have no status changes. -/
theorem statusChanges_replicate (n : Nat) (s : Status) :
    statusChanges (List.replicate n s) = 0 := by
  induction n with
  | zero => rfl
  | succ n ih =>
    cases n with
    | zero => rfl
    | succ m =>
      rw [List.replicate_succ, List.replicate_succ]
      show (if s = s then 0 else 1) + statusChanges (s :: List.replicate m s) = 0
      rw [if_pos rfl, ← List.replicate_succ, ih]

/-- Invariant of the registry operations: starting from a `processing`
record, any operation sequence containing at most one promise settlement
yields a legal, at-most-one-change status trace. -/
theorem ingest_status_aux (ops : List RegistryOp) :
    ∀ d : DocRecord, d.status = .processing →
      (ops.filter (fun op => op.isComplete)).length ≤ 1 →
      List.Chain' stepOk (statusTrace d ops) ∧ statusChanges (statusTrace d ops) ≤ 1 := by
  induction ops with
  | nil =>
    intro d _ _
    exact ⟨by simp [statusTrace_nil], by simp [statusTrace_nil, statusChanges]⟩
  | cons op ops ih =>
    intro d hd hcount
    cases op with
    | readStatus =>
      rw [statusTrace_cons]
      have happ : applyOp d .readStatus = d := rfl
      rw [happ]
      have hc' : (ops.filter (fun op => op.isComplete)).length ≤ 1 := by
        simpa [RegistryOp.isComplete] using hcount
      obtain ⟨hch, hcg⟩ := ih d hd hc'
      constructor
      · rw [List.chain'_cons']
        refine ⟨?_, hch⟩
        intro y hy
        rw [statusTrace_headq d ops] at hy
        simp only [Option.mem_def, Option.some.injEq] at hy
        subst hy
        exact Or.inl rfl
      · rw [statusChanges_cons_of_head d.status _ (statusTrace_headq d ops)]
        exact hcg
    | complete o =>
      rw [statusTrace_cons]
      have h0 : (ops.filter (fun op => op.isComplete)).length = 0 := by
        have hstep : ((RegistryOp.complete o :: ops).filter (fun op => op.isComplete)).length
            = (ops.filter (fun op => op.isComplete)).length + 1 := by
          simp [RegistryOp.isComplete]
        omega
      have hall : ∀ op ∈ ops, op.isComplete = false := by
        intro op hop
        by_contra hc
        have hmem : op ∈ ops.filter (fun op => op.isComplete) := by
          rw [List.mem_filter]
          exact ⟨hop, by simpa using hc⟩
        rw [List.length_eq_zero] at h0
        rw [h0] at hmem
        exact absurd hmem (List.not_mem_nil op)
      have hset : applyOp d (.complete o) = settle d o := rfl
      rw [hset, statusTrace_all_reads (settle d o) ops hall]
      have hterm : (settle d o).status = .ready ∨ (settle d o).status = .failed := by
        cases o with
        | ok r => exact Or.inl rfl
        | error m => exact Or.inr rfl
      constructor
      · rw [List.chain'_cons']
        constructor
        · intro y hy
          have hh : (List.replicate (ops.length + 1) (settle d o).status).head?
              = some (settle d o).status := by
            rw [List.replicate_succ]
            rfl
          rw [hh] at hy
          simp only [Option.mem_def, Option.some.injEq] at hy
          subst hy
          exact Or.inr ⟨hd, hterm⟩
        · exact chainOk_replicate _ _
      · rw [List.replicate_succ]
        show (if d.status = (settle d o).status then 0 else 1) +
            statusChanges ((settle d o).status :: List.replicate ops.length (settle d o).status) ≤ 1
        rw [← List.replicate_succ, statusChanges_replicate]
        split <;> omega

/-- C1: a document created by upload starts at `processing`; along any
sequence of registry operations performed by the code (reads, plus the at
most one settlement of the `processDocument` promise), the status changes at
most once, and only from `processing` to `ready` or `failed`; no operation
moves a document out of a terminal status or back to `processing`. -/
theorem uploadDocument_status_machine (documentId fileName : String) (ops : List RegistryOp)
    (h : (ops.filter (fun op => op.isComplete)).length ≤ 1) :
    (statusTrace (createDoc documentId fileName) ops).head? = some .processing ∧
    List.Chain' stepOk (statusTrace (createDoc documentId fileName) ops) ∧
    statusChanges (statusTrace (createDoc documentId fileName) ops) ≤ 1 := by
  obtain ⟨hch, hcg⟩ := ingest_status_aux ops (createDoc documentId fileName) rfl h
  exact ⟨statusTrace_headq _ _, hch, hcg⟩

/-- C1 witness: a concrete lifecycle — read, successful settlement, read. -/
theorem uploadDocument_status_machine_witness :
    (([RegistryOp.readStatus,
        RegistryOp.complete (.ok { pageCount := 3, chunkCount := 3 }),
        RegistryOp.readStatus].filter (fun op => op.isComplete)).length ≤ 1) ∧
    ((statusTrace (createDoc "doc-1" "notes.pdf")
        [RegistryOp.readStatus,
          RegistryOp.complete (.ok { pageCount := 3, chunkCount := 3 }),
          RegistryOp.readStatus]).head? = some .processing ∧
      List.Chain' stepOk (statusTrace (createDoc "doc-1" "notes.pdf")
        [RegistryOp.readStatus,
          RegistryOp.complete (.ok { pageCount := 3, chunkCount := 3 }),
          RegistryOp.readStatus]) ∧
      statusChanges (statusTrace (createDoc "doc-1" "notes.pdf")
        [RegistryOp.readStatus,
          RegistryOp.complete (.ok { pageCount := 3, chunkCount := 3 }),
          RegistryOp.readStatus]) ≤ 1) :=
  ⟨by decide,
    uploadDocument_status_machine "doc-1" "notes.pdf"
      [RegistryOp.readStatus,
        RegistryOp.complete (.ok { pageCount := 3, chunkCount := 3 }),
        RegistryOp.readStatus] (by decide)⟩

/-! ## Chunk-scenario lemmas and theorems (C2) -/

/-- Evaluation of the window lengths at input length 2400. -/
theorem chunkLens_2400 : chunkLens 2400 = [1000, 1000, 800] := by
  simp [chunkLens]

/-- The chunk texts produced by ingestion have exactly the window lengths of
the input text. -/
theorem splitterChunks_lengths (t : String) :
    (splitterChunks t).map (fun c => c.pageContent.length) = chunkLens t.data.length := by
  rw [splitterChunks, List.map_map]
  have hcomp : ((fun c : Chunk => c.pageContent.length) ∘
      (fun cs : List Char => ({ pageContent := String.mk cs, pageNumber := none } : Chunk)))
      = List.length := by
    funext cs
    rfl
  rw [hcomp, chunkList_lengths]

/-- C2 counterexample: for a concrete 2400-character extracted text the
chunk lengths produced by ingestion are not `[1000, 1000, 400]` (the third
chunk has 800 characters: the 200-character overlap makes the windows start
at strides of 800). -/
theorem ingestion_chunk_sizes_counterexample :
    sample2400.data.length = 2400 ∧
    (splitterChunks sample2400).map (fun c => c.pageContent.length) ≠ [1000, 1000, 400] := by
  have h : sample2400.data.length = 2400 := by
    show (List.replicate 2400 'a').length = 2400
    rw [List.length_replicate]
  refine ⟨h, ?_⟩
  rw [splitterChunks_lengths, h, chunkLens_2400]
  decide

/-- C2 (amended): ingesting a 3-page PDF whose extracted text has exactly
2400 characters (and is not whitespace-only), with a succeeding embedding
provider, produces exactly 3 chunks of lengths 1000, 1000 and 800, and the
document record settles to status `ready` with `chunkCount = 3` and
`pageCount = 3`. -/
theorem ingestion_2400_scenario
    (env : IngestEnv) (idx : VIndex) (documentId fileName : String) (t : String)
    (vs : List (List Int))
    (hlen : t.data.length = 2400)
    (htext : jsTrimEmpty t = false)
    (hembed : env.embedDocs ((splitterChunks t).map (fun c => c.pageContent)) = .ok vs)
    (hvs : vs.length = 3) :
    (splitterChunks t).map (fun c => c.pageContent.length) = [1000, 1000, 800] ∧
    (∃ idx2, processDocument env idx (some { text := t, numpages := 3 }) documentId fileName
        = .ok ({ pageCount := 3, chunkCount := 3 }, idx2)) ∧
    (settle (createDoc documentId fileName)
        (.ok { pageCount := 3, chunkCount := 3 })).status = .ready ∧
    (settle (createDoc documentId fileName)
        (.ok { pageCount := 3, chunkCount := 3 })).chunkCount = some 3 ∧
    (settle (createDoc documentId fileName)
        (.ok { pageCount := 3, chunkCount := 3 })).pageCount = some 3 := by
  have hlens : (splitterChunks t).map (fun c => c.pageContent.length) = [1000, 1000, 800] := by
    rw [splitterChunks_lengths, hlen, chunkLens_2400]
  have hchunks3 : (splitterChunks t).length = 3 := by
    have hcl := congrArg List.length hlens
    simpa using hcl
  have hne : (splitterChunks t).isEmpty = false := by
    cases hsc : splitterChunks t with
    | nil => rw [hsc] at hchunks3; simp at hchunks3
    | cons a l => rfl
  have hvempty : vs.isEmpty = false := by
    cases vs with
    | nil => simp at hvs
    | cons a l => rfl
  have hlenseq : (splitterChunks t).length = vs.length := by rw [hchunks3, hvs]
  have hbody : processDocumentBody env idx (some { text := t, numpages := 3 })
      documentId fileName
      = .ok ({ pageCount := 3, chunkCount := 3 },
          upsertAll idx (buildRecords documentId (splitterChunks t) vs fileName)) := by
    rw [processDocumentBody]
    simp only [htext, Bool.false_eq_true, if_false]
    simp only [hne, Bool.false_eq_true, if_false]
    rw [hembed]
    simp only [storeVectors, hne, hvempty, Bool.false_eq_true, if_false, hlenseq, ne_eq,
      not_true_eq_false, hchunks3]
    rw [hvs]
  refine ⟨hlens, ?_, rfl, rfl, rfl⟩
  rw [processDocument, hbody]
  exact ⟨_, rfl⟩

/-- C2 witness: the amended scenario evaluated at a concrete 2400-character
text, a trivially succeeding embedding provider and the empty index. -/
theorem ingestion_2400_scenario_witness :
    sample2400.data.length = 2400 ∧
    jsTrimEmpty sample2400 = false ∧
    constEmbedEnv.embedDocs ((splitterChunks sample2400).map (fun c => c.pageContent))
      = .ok (((splitterChunks sample2400).map (fun c => c.pageContent)).map
          (fun _ => ([0] : List Int))) ∧
    (((splitterChunks sample2400).map (fun c => c.pageContent)).map
        (fun _ => ([0] : List Int))).length = 3 ∧
    ((splitterChunks sample2400).map (fun c => c.pageContent.length) = [1000, 1000, 800] ∧
      (∃ idx2, processDocument constEmbedEnv emptyIndex
          (some { text := sample2400, numpages := 3 }) "doc-1" "notes.pdf"
          = .ok ({ pageCount := 3, chunkCount := 3 }, idx2)) ∧
      (settle (createDoc "doc-1" "notes.pdf")
          (.ok { pageCount := 3, chunkCount := 3 })).status = .ready ∧
      (settle (createDoc "doc-1" "notes.pdf")
          (.ok { pageCount := 3, chunkCount := 3 })).chunkCount = some 3 ∧
      (settle (createDoc "doc-1" "notes.pdf")
          (.ok { pageCount := 3, chunkCount := 3 })).pageCount = some 3) := by
  have h1 : sample2400.data.length = 2400 := by
    show (List.replicate 2400 'a').length = 2400
    rw [List.length_replicate]
  have h2 : jsTrimEmpty sample2400 = false := by decide
  have h4 : (((splitterChunks sample2400).map (fun c => c.pageContent)).map
      (fun _ => ([0] : List Int))).length = 3 := by
    simp only [List.length_map]
    have hcl := congrArg List.length (splitterChunks_lengths sample2400)
    rw [h1, chunkLens_2400] at hcl
    simpa using hcl
  exact ⟨h1, h2, rfl, h4,
    ingestion_2400_scenario constEmbedEnv emptyIndex "doc-1" "notes.pdf" sample2400 _
      h1 h2 rfl h4⟩

/-! ## Vector-record lemmas and theorems (C6) -/

/-- One record is built per chunk. -/
theorem buildRecordsAux_length (d f : String) (v : List (List Int)) (i : Nat)
    (cs : List Chunk) : (buildRecordsAux d f v i cs).length = cs.length := by
  induction cs generalizing i with
  | nil => rfl
  | cons c cs ih => simp [buildRecordsAux, ih]

/-- The record ids depend only on the document id and the chunk indices. -/
theorem buildRecordsAux_ids (d f : String) (v : List (List Int)) (i : Nat)
    (cs : List Chunk) :
    (buildRecordsAux d f v i cs).map (fun r => r.id)
      = (List.range' i cs.length).map (fun j => d ++ "-chunk-" ++ toString j) := by
  induction cs generalizing i with
  | nil => rfl
  | cons c cs ih =>
    simp only [buildRecordsAux, List.map_cons, List.length_cons, List.range'_succ, ih]

/-- The ids of the records built by `storeVectors` are exactly
`documentId ++ "-chunk-" ++ i` for `i` below the chunk count. -/
theorem buildRecords_ids (d f : String) (v : List (List Int)) (cs : List Chunk) :
    (buildRecords d cs v f).map (fun r => r.id)
      = (List.range cs.length).map (fun j => d ++ "-chunk-" ++ toString j) := by
  rw [buildRecords, buildRecordsAux_ids, List.range_eq_range']

/-- Upserting is pointwise: the result at `id` only depends on the prior
index at `id`. -/
theorem upsertAll_agree (rs : List VectorRecord) (idx1 idx2 : VIndex) (id : String)
    (h : idx1 id = idx2 id) : upsertAll idx1 rs id = upsertAll idx2 rs id := by
  induction rs generalizing idx1 idx2 with
  | nil => exact h
  | cons r rs ih =>
    show upsertAll (upsertRecord idx1 r) rs id = upsertAll (upsertRecord idx2 r) rs id
    refine ih _ _ ?_
    by_cases hid : id = r.id <;> simp [upsertRecord, hid, h]

/-- Ids not written by the batch are untouched. -/
theorem upsertAll_not_mem (rs : List VectorRecord) (idx : VIndex) (id : String)
    (h : id ∉ rs.map (fun r => r.id)) : upsertAll idx rs id = idx id := by
  induction rs generalizing idx with
  | nil => rfl
  | cons r rs ih =>
    simp only [List.map_cons, List.mem_cons, not_or] at h
    show upsertAll (upsertRecord idx r) rs id = idx id
    rw [ih _ h.2]
    simp [upsertRecord, h.1]

/-- Ids written by the batch are fully determined by the batch: the prior
index is irrelevant (overwrite semantics). -/
theorem upsertAll_mem_invariant (rs : List VectorRecord) (idx1 idx2 : VIndex) (id : String)
    (h : id ∈ rs.map (fun r => r.id)) :
    upsertAll idx1 rs id = upsertAll idx2 rs id := by
  induction rs generalizing idx1 idx2 with
  | nil => simp at h
  | cons r rs ih =>
    by_cases hm : id ∈ rs.map (fun r => r.id)
    · show upsertAll (upsertRecord idx1 r) rs id = upsertAll (upsertRecord idx2 r) rs id
      exact ih _ _ hm
    · simp only [List.map_cons, List.mem_cons] at h
      rcases h with h | h
      · show upsertAll (upsertRecord idx1 r) rs id = upsertAll (upsertRecord idx2 r) rs id
        rw [upsertAll_not_mem rs _ id hm, upsertAll_not_mem rs _ id hm]
        simp [upsertRecord, h]
      · exact absurd h hm

/-- C6: `storeVectors` builds exactly one record per chunk, with id
`documentId ++ "-chunk-" ++ chunkIndex` (deterministic in the document id
and chunk index alone); re-ingesting the same document under the same
documentId therefore produces the same record ids, and the second upsert
overwrites the first instead of duplicating it. -/
theorem storeVectors_idempotent_upsert
    (idx : VIndex) (d f f' : String) (cs cs' : List Chunk)
    (vs vs' : List (List Int)) (hlen : cs'.length = cs.length) :
    (buildRecords d cs vs f).length = cs.length ∧
    (buildRecords d cs vs f).map (fun r => r.id)
      = (List.range cs.length).map (fun j => d ++ "-chunk-" ++ toString j) ∧
    upsertAll (upsertAll idx (buildRecords d cs vs f)) (buildRecords d cs' vs' f')
      = upsertAll idx (buildRecords d cs' vs' f') := by
  refine ⟨buildRecordsAux_length d f vs 0 cs, buildRecords_ids d f vs cs, ?_⟩
  funext id
  by_cases hm : id ∈ (buildRecords d cs' vs' f').map (fun r => r.id)
  · exact upsertAll_mem_invariant _ _ _ _ hm
  · have hids : (buildRecords d cs vs f).map (fun r => r.id)
        = (buildRecords d cs' vs' f').map (fun r => r.id) := by
      rw [buildRecords_ids, buildRecords_ids, hlen]
    have hm1 : id ∉ (buildRecords d cs vs f).map (fun r => r.id) := by
      rw [hids]; exact hm
    rw [upsertAll_not_mem _ _ _ hm, upsertAll_not_mem _ _ _ hm]
    exact upsertAll_not_mem _ _ _ hm1

/-- C6 witness: two single-chunk ingests of the same document id — the
second upsert overwrites the first. -/
theorem storeVectors_idempotent_upsert_witness :
    ([({ pageContent := "hello again", pageNumber := none } : Chunk)]).length
      = ([({ pageContent := "hello", pageNumber := none } : Chunk)]).length ∧
    ((buildRecords "doc-1" [{ pageContent := "hello", pageNumber := none }] [[1]] "a.pdf").length
        = ([({ pageContent := "hello", pageNumber := none } : Chunk)]).length ∧
      (buildRecords "doc-1" [{ pageContent := "hello", pageNumber := none }] [[1]] "a.pdf").map
          (fun r => r.id)
        = (List.range ([({ pageContent := "hello", pageNumber := none } : Chunk)]).length).map
            (fun j => "doc-1" ++ "-chunk-" ++ toString j) ∧
      upsertAll
          (upsertAll emptyIndex
            (buildRecords "doc-1" [{ pageContent := "hello", pageNumber := none }] [[1]] "a.pdf"))
          (buildRecords "doc-1" [{ pageContent := "hello again", pageNumber := none }] [[2]] "a.pdf")
        = upsertAll emptyIndex
            (buildRecords "doc-1" [{ pageContent := "hello again", pageNumber := none }] [[2]] "a.pdf")) :=
  ⟨rfl,
    storeVectors_idempotent_upsert emptyIndex "doc-1" "a.pdf" "a.pdf"
      [{ pageContent := "hello", pageNumber := none }]
      [{ pageContent := "hello again", pageNumber := none }] [[1]] [[2]] rfl⟩

end RagChat
